import Mathlib

/-!
Shallow embedding of the FOUND-website server core (camera-specification
resolver, pipeline orchestrator, process-result classification and output
parsing), translated from the repository's JavaScript sources.  Numbers are
modelled as exact rationals (`ℚ`); the JavaScript value `NaN` is modelled by
a dedicated constructor, and `null` by `Option.none`.  The canonical pipeline
variant (the most complete server: edge detection + debug-enhanced FOUND
invocation) is the one embedded for the pipeline-level claims; the resolver
(`extractCameraSpecs`), device database (`estimatePixelSize`) and dimension
heuristic are textually identical across the variants that contain them.
-/

set_option allowUnsafeReducibility true
attribute [local semireducible] Rat.mul Rat.add Rat.inv Rat.ofScientific Rat.sub Rat.div

/-- A JavaScript number: either an exact rational value or NaN. -/
inductive JsNum
  | val (q : ℚ)
  | nan
deriving DecidableEq

/-- JS truthiness of a `number | null` value: `null`, `0` (and NaN, which we
fold into `none` where it can arise) are falsy. -/
def numTruthy : Option ℚ → Bool
  | none => false
  | some v => v != 0

/-- JS truthiness of a `string | null` value: `null` and `""` are falsy. -/
def strTruthy : Option String → Bool
  | none => false
  | some s => s != ""

/-- JS `a || b` on nullable numbers. -/
def jsOrNum (a b : Option ℚ) : Option ℚ := if numTruthy a then a else b

/-- JS `a || b` on nullable strings. -/
def jsOrStr (a b : Option String) : Option String := if strTruthy a then a else b

/-- JS `\s` whitespace (ASCII part: space, tab, LF, VT, FF, CR). -/
def isWsChar (c : Char) : Bool :=
  c == ' ' || c == '\t' || c == '\n' || c == '\r' || c.toNat == 11 || c.toNat == 12

/-- JS `\w` word characters `[A-Za-z0-9_]`. -/
def isWordChar (c : Char) : Bool := c.isAlphanum || c == '_'

/-- The character class `[\d\.e\+\-]` of the distance regexes (with the `i`
flag, so `E` is matched as well). -/
def isClassChar (c : Char) : Bool :=
  c.isDigit || c == '.' || c == 'e' || c == 'E' || c == '+' || c == '-'

/-- Case-insensitive match of a literal (lower-case) pattern against the head
of a character list, returning the remainder on success. -/
def matchLit : List Char → List Char → Option (List Char)
  | [], cs => some cs
  | _ :: _, [] => none
  | p :: ps, c :: cs => if c.toLower == p then matchLit ps cs else none

/-- Skip JS whitespace (the semantics of a greedy `\s*`). -/
def skipWs (cs : List Char) : List Char := cs.dropWhile isWsChar

/-- The literal label of the primary distance pattern, lower-cased. -/
def distanceLabel : List Char := "distance from earth:".toList

/-- Attempt to match `Distance from Earth:\s*([\d\.e\+\-]+)\s*m` (pattern 1 of
`parseDistanceFromOutput`, case-insensitive) with the match anchored at the
head of `cs`; returns the captured number characters.  The capture class
contains neither whitespace nor `m`, so the greedy maximal run is the only
candidate the regex engine can accept here. -/
def tryPattern1At (cs : List Char) : Option (List Char) :=
  match matchLit distanceLabel cs with
  | none => none
  | some rest =>
    let rest2 := skipWs rest
    let run := rest2.takeWhile isClassChar
    if run.isEmpty then none
    else
      match skipWs (rest2.dropWhile isClassChar) with
      | [] => none
      | c :: _ => if c.toLower == 'm' then some run else none

/-- Scan for the first position where pattern 1 matches (regex leftmost-match
semantics). -/
def scanPattern1 : List Char → Option (List Char)
  | [] => none
  | c :: cs =>
    match tryPattern1At (c :: cs) with
    | some r => some r
    | none => scanPattern1 cs

/-- Attempt to match the fallback `([\d\.e\+\-]+)\s*m(?:\s|$)` (pattern 2 of
`parseDistanceFromOutput`, case-insensitive) anchored at the head of `cs`. -/
def tryPattern2At (cs : List Char) : Option (List Char) :=
  let run := cs.takeWhile isClassChar
  if run.isEmpty then none
  else
    match skipWs (cs.dropWhile isClassChar) with
    | [] => none
    | c :: rest =>
      if c.toLower == 'm' then
        match rest with
        | [] => some run
        | d :: _ => if isWsChar d then some run else none
      else none

/-- Scan for the first position where pattern 2 matches. -/
def scanPattern2 : List Char → Option (List Char)
  | [] => none
  | c :: cs =>
    match tryPattern2At (c :: cs) with
    | some r => some r
    | none => scanPattern2 cs

/-- Split a list into its maximal leading digit run and the remainder. -/
def digitSpan (cs : List Char) : List Char × List Char :=
  (cs.takeWhile Char.isDigit, cs.dropWhile Char.isDigit)

/-- Value of a digit run read as an integer part. -/
def digitsVal (ds : List Char) : ℚ :=
  ds.foldl (fun a c => a * 10 + ((c.toNat - 48 : ℕ) : ℚ)) 0

/-- Value of a digit run read as a fractional part (digits after the dot). -/
def fracVal (ds : List Char) : ℚ :=
  ds.foldr (fun c a => (((c.toNat - 48 : ℕ) : ℚ) + a) / 10) 0

/-- Value of a digit run read as a natural number (exponent digits). -/
def digitsNat (ds : List Char) : ℕ :=
  ds.foldl (fun a c => a * 10 + (c.toNat - 48)) 0

/-- JavaScript `parseFloat`: longest valid numeric prefix (optional sign,
decimal mantissa needing at least one digit, optional scientific exponent);
`NaN` when no valid prefix exists. -/
def jsParseFloat (cs0 : List Char) : JsNum :=
  let cs := cs0.dropWhile isWsChar
  let sign : ℚ × List Char :=
    match cs with
    | '+' :: t => (1, t)
    | '-' :: t => (-1, t)
    | _ => (1, cs)
  let (d1, cs2) := digitSpan sign.2
  let fracPart : List Char × List Char :=
    match cs2 with
    | '.' :: t => digitSpan t
    | _ => ([], cs2)
  let d2 := fracPart.1
  if d1.isEmpty && d2.isEmpty then JsNum.nan
  else
    let mant := sign.1 * (digitsVal d1 + fracVal d2)
    let expo : ℤ :=
      match fracPart.2 with
      | c :: t =>
        if c == 'e' || c == 'E' then
          let signedTail : ℤ × List Char :=
            match t with
            | '+' :: u => (1, u)
            | '-' :: u => (-1, u)
            | _ => (1, t)
          let ed := (digitSpan signedTail.2).1
          if ed.isEmpty then 0 else signedTail.1 * (digitsNat ed : ℤ)
        else 0
      | [] => 0
    JsNum.val (mant * (10 : ℚ) ^ expo)

/-- `parseDistanceFromOutput` of the canonical server variant: try the labeled
pattern `Distance from Earth:\s*([\d\.e\+\-]+)\s*m`, then the fallback
`([\d\.e\+\-]+)\s*m(?:\s|$)`, both case-insensitive; apply `parseFloat` to the
first capture; return `null` (`none`) when neither matches. -/
def parseDistanceFromOutput (output : String) : Option JsNum :=
  match scanPattern1 output.toList with
  | some cap => some (jsParseFloat cap)
  | none =>
    match scanPattern2 output.toList with
    | some cap => some (jsParseFloat cap)
    | none => none

/-! ## String utilities used by the device-database lookup -/

/-- Lower-case an ASCII string (JS `toLowerCase` on the database keys and the
queried make/model strings). -/
def toLowerStr (s : String) : String := String.mk (s.toList.map Char.toLower)

/-- Whether `pat` occurs at the head of `cs`. -/
def listStartsWith : List Char → List Char → Bool
  | [], _ => true
  | _ :: _, [] => false
  | p :: ps, c :: cs => p == c && listStartsWith ps cs

/-- Whether `pat` occurs anywhere inside `cs` (JS `String.includes`). -/
def listContainsSeq (pat : List Char) : List Char → Bool
  | [] => pat.isEmpty
  | c :: cs => listStartsWith pat (c :: cs) || listContainsSeq pat cs

/-- JS `s.includes(sub)`. -/
def strIncludes (s sub : String) : Bool := listContainsSeq sub.toList s.toList

/-- Strip the characters removed by `replace(/[^\w\s]/g, '')`: keep word
characters and whitespace only. -/
def stripNonWord (cs : List Char) : List Char :=
  cs.filter (fun c => isWordChar c || isWsChar c)

/-- JS `split(/\s+/)`: split at maximal whitespace runs; a leading or trailing
run produces an empty piece, exactly as in JavaScript. -/
def splitWsGo : Bool → List Char → List Char → List String
  | _, cur, [] => [String.mk cur.reverse]
  | inWs, cur, c :: t =>
    if isWsChar c then
      if inWs then splitWsGo true cur t
      else String.mk cur.reverse :: splitWsGo true [] t
    else splitWsGo false (c :: cur) t

/-- JS `s.split(/\s+/)`. -/
def jsSplitWs (s : String) : List String := splitWsGo false [] s.toList


/-! ## Device database and camera-specification resolver
(`estimatePixelSize`, `calculatePixelSizeFromResolution`,
`estimatePixelSizeFromDimensions`, `extractCameraSpecs` — identical in
`server.js` and in the canonical variant). -/

/-- The camera database of `estimatePixelSize`: pixel sizes in micrometers,
keyed by make then model, in source (insertion) order. -/
def cameraDatabase : List (String × List (String × ℚ)) :=
  [("Apple",
    [("iPhone 15 Pro Max", 1.12), ("iPhone 15 Pro", 1.22), ("iPhone 15 Plus", 1.26),
     ("iPhone 15", 1.26), ("iPhone 14 Pro Max", 1.22), ("iPhone 14 Pro", 1.22),
     ("iPhone 14 Plus", 1.26), ("iPhone 14", 1.26), ("iPhone 13 Pro Max", 1.9),
     ("iPhone 13 Pro", 1.9), ("iPhone 13 mini", 1.7), ("iPhone 13", 1.7),
     ("iPhone 12 Pro Max", 1.7), ("iPhone 12 Pro", 1.4), ("iPhone 12 mini", 1.4),
     ("iPhone 12", 1.4), ("iPhone 11 Pro Max", 1.0), ("iPhone 11 Pro", 1.0),
     ("iPhone 11", 1.4), ("iPhone SE", 1.22), ("iPhone XS Max", 1.4),
     ("iPhone XS", 1.4), ("iPhone XR", 1.4), ("iPhone X", 1.22),
     ("iPhone 8 Plus", 1.22), ("iPhone 8", 1.22), ("iPhone 7 Plus", 1.22),
     ("iPhone 7", 1.22)]),
   ("Samsung",
    [("Galaxy S24 Ultra", 1.4), ("Galaxy S24+", 1.4), ("Galaxy S24", 1.4),
     ("Galaxy S23 Ultra", 1.4), ("Galaxy S23+", 1.4), ("Galaxy S23", 1.4),
     ("Galaxy S22 Ultra", 1.8), ("Galaxy S22+", 1.8), ("Galaxy S22", 1.8),
     ("Galaxy S21 Ultra", 1.8), ("Galaxy S21+", 1.8), ("Galaxy S21", 1.8),
     ("Galaxy Note 20 Ultra", 1.8), ("Galaxy Note 20", 1.8)]),
   ("Google",
    [("Pixel 8 Pro", 1.2), ("Pixel 8", 1.2), ("Pixel 7 Pro", 1.2), ("Pixel 7", 1.2),
     ("Pixel 6 Pro", 1.2), ("Pixel 6", 1.2), ("Pixel 5", 1.4), ("Pixel 4", 1.4),
     ("Pixel 3", 1.4)]),
   ("Canon",
    [("EOS R5", 4.4), ("EOS R6", 6.0), ("EOS R", 5.4), ("EOS 5D Mark IV", 5.4),
     ("EOS 6D Mark II", 6.5), ("EOS 90D", 3.2), ("EOS M50", 3.7)]),
   ("Nikon",
    [("D850", 4.3), ("D780", 5.9), ("D750", 5.9), ("Z7", 4.3), ("Z6", 5.9),
     ("Z5", 5.9)]),
   ("Sony",
    [("A7R V", 3.8), ("A7 IV", 5.9), ("A7R IV", 3.8), ("A7R III", 4.3),
     ("A7 III", 5.9), ("A6700", 3.9), ("A6600", 3.9), ("A6400", 3.9)])]

/-- The make-level fallback pixel sizes of `estimatePixelSize`. -/
def fallbacks : List (String × ℚ) :=
  [("Apple", 1.4), ("Samsung", 1.6), ("Google", 1.3), ("Canon", 5.0),
   ("Nikon", 5.0), ("Sony", 4.5), ("Huawei", 1.6), ("OnePlus", 1.6),
   ("Xiaomi", 1.6)]

/-- JS `String.trim`: drop leading and trailing whitespace. -/
def jsTrim (s : String) : String :=
  String.mk (((s.toList.dropWhile isWsChar).reverse.dropWhile isWsChar).reverse)

/-- The iPhone token-subset rule of the model matcher: strip non-word
characters, split on whitespace, and require every key token to be related by
substring containment to some model token. -/
def appleTokenMatch (keyLower modelLower : String) : Bool :=
  let modelParts := jsSplitWs (String.mk (stripNonWord modelLower.toList))
  let keyParts := jsSplitWs (String.mk (stripNonWord keyLower.toList))
  keyParts.all fun keyPart => modelParts.any fun modelPart =>
    strIncludes modelPart keyPart || strIncludes keyPart modelPart

/-- The model-key predicate of `estimatePixelSize`: exact match, containment in
either direction, or (for Apple) the token-subset rule. -/
def modelKeyMatches (makeKey key cleanModel : String) : Bool :=
  let keyLower := toLowerStr key
  let modelLower := toLowerStr cleanModel
  if keyLower == modelLower then true
  else if strIncludes modelLower keyLower then true
  else if strIncludes keyLower modelLower then true
  else if makeKey == "Apple" then appleTokenMatch keyLower modelLower
  else false

/-- Tier 1-3 of `estimatePixelSize`: find the make entry (case-insensitive
containment in either direction), then the first matching model key. -/
def modelLookup (cleanMake cleanModel : String) : Option ℚ :=
  match cameraDatabase.find? (fun kv =>
      strIncludes (toLowerStr cleanMake) (toLowerStr kv.1) ||
      strIncludes (toLowerStr kv.1) (toLowerStr cleanMake)) with
  | some (makeKey, models) =>
    match models.find? (fun kv => modelKeyMatches makeKey kv.1 cleanModel) with
    | some (_, v) => some v
    | none => none
  | none => none

/-- Tier 4 of `estimatePixelSize`: make-level fallback values. -/
def fallbackLookup (cleanMake : String) : Option ℚ :=
  match fallbacks.find? (fun kv =>
      strIncludes (toLowerStr cleanMake) (toLowerStr kv.1)) with
  | some (_, v) => some v
  | none => none

/-- `estimatePixelSize(make, model)`: model match, else make fallback, else the
global smartphone default `1.6`. -/
def estimatePixelSize (make model : String) : ℚ :=
  let cleanMake := jsTrim make
  let cleanModel := jsTrim model
  match modelLookup cleanMake cleanModel with
  | some v => v
  | none =>
    match fallbackLookup cleanMake with
    | some v => v
    | none => 1.6

/-- `estimatePixelSizeFromDimensions(width, height)`: the dimension
heuristic. -/
def estimatePixelSizeFromDimensions (width height : ℚ) : ℚ :=
  if width > 3000 ∧ height > 2000 then 1.8
  else if width > 2000 ∧ height > 1500 then 2.0
  else 2.2

/-- The EXIF fields read by the resolver.  The source reads several aliases of
each field with `||`-chains; each Lean field stands for the first truthy alias.
A `null`/empty EXIF object is modelled by `Option.none` at the call site. -/
structure ExifData where
  make : Option String
  model : Option String
  imageWidth : Option ℚ
  imageHeight : Option ℚ
  focalLength : Option ℚ
  focalLengthIn35mmFormat : Option ℚ
  focalPlaneXResolution : Option ℚ
  focalPlaneYResolution : Option ℚ
  focalPlaneResolutionUnit : Option ℚ
deriving DecidableEq

/-- `calculatePixelSizeFromResolution(exifData)`: average of the X and Y pixel
sizes derived from the focal-plane resolutions (25400 µm/inch for unit 2,
10000 µm/cm for unit 3, default unit 2). -/
def calculatePixelSizeFromResolution (e : ExifData) : Option ℚ :=
  let xRes := e.focalPlaneXResolution
  let yRes := e.focalPlaneYResolution
  let resUnit := jsOrNum e.focalPlaneResolutionUnit (some 2)
  if numTruthy xRes && numTruthy yRes then
    let conversionFactor : ℚ := if resUnit = some 3 then 10000 else 25400
    some ((conversionFactor / xRes.getD 0 + conversionFactor / yRes.getD 0) / 2)
  else none

/-- The resolved camera specification (`specs` object of
`extractCameraSpecs`). -/
structure CameraSpecs where
  focalLength : Option ℚ
  pixelSize : Option ℚ
  make : Option String
  model : Option String
  imageWidth : Option ℚ
  imageHeight : Option ℚ
  source : String
deriving DecidableEq

/-- The initial specs object: manual overrides, everything else null, source
`"manual"`. -/
def specsInit (manualFocalLength manualPixelSize : Option ℚ) : CameraSpecs :=
  { focalLength := manualFocalLength, pixelSize := manualPixelSize,
    make := none, model := none, imageWidth := none, imageHeight := none,
    source := "manual" }

/-- Make/model and image-dimension extraction of `extractCameraSpecs`. -/
def withMakeModelDims (e : ExifData) (s : CameraSpecs) : CameraSpecs :=
  { s with make := jsOrStr e.make none, model := jsOrStr e.model none,
           imageWidth := jsOrNum e.imageWidth none,
           imageHeight := jsOrNum e.imageHeight none }

/-- Focal-length step of `extractCameraSpecs`: when no manual focal length,
take the direct EXIF focal length, else the 35mm-format field, and tag the
source `"exif"` when one was found. -/
def focalStep (e : ExifData) (s : CameraSpecs) : CameraSpecs :=
  if !numTruthy s.focalLength then
    let fl := jsOrNum e.focalLength (jsOrNum e.focalLengthIn35mmFormat none)
    { s with focalLength := fl,
             source := if numTruthy fl then "exif" else s.source }
  else s

/-- Resolution sub-step of the pixel-size block: try the EXIF focal-plane
resolution first (only when `FocalPlaneXResolution` is truthy). -/
def resolutionStep (e : ExifData) (s : CameraSpecs) : CameraSpecs :=
  { s with pixelSize :=
      if numTruthy e.focalPlaneXResolution then calculatePixelSizeFromResolution e
      else none }

/-- Database sub-step of the pixel-size block: when the pixel size is still
falsy and make and model are truthy, take the database estimate and update the
source tag. -/
def databaseStep (s : CameraSpecs) : CameraSpecs :=
  if !numTruthy s.pixelSize && strTruthy s.make && strTruthy s.model then
    let v := estimatePixelSize (s.make.getD "") (s.model.getD "")
    { s with pixelSize := some v,
             source :=
               if v != 0 && s.source == "exif" then "exif+database"
               else if v != 0 then "database" else s.source }
  else s

/-- Dimension-heuristic sub-step of the pixel-size block (last resort); the
flag records whether the branch executed. -/
def dimensionStep (s : CameraSpecs) : CameraSpecs × Bool :=
  if !numTruthy s.pixelSize && numTruthy s.imageWidth && numTruthy s.imageHeight then
    ({ s with
        pixelSize := some (estimatePixelSizeFromDimensions
          (s.imageWidth.getD 0) (s.imageHeight.getD 0)),
        source :=
          if s.source == "exif" || s.source == "exif+database"
          then s.source ++ "+dimensions" else "dimensions" }, true)
  else (s, false)

/-- Pixel-size steps of `extractCameraSpecs` (guarded by the manual pixel size
being falsy): EXIF focal-plane resolution, then the device database, then the
dimension heuristic. -/
def pixelSteps (e : ExifData) (s : CameraSpecs) : CameraSpecs × Bool :=
  if !numTruthy s.pixelSize then dimensionStep (databaseStep (resolutionStep e s))
  else (s, false)

/-- `extractCameraSpecs(exifData, manualFocalLength, manualPixelSize)`; the
second component records whether the dimension-heuristic branch ran. -/
def extractCameraSpecs (exifData : Option ExifData)
    (manualFocalLength manualPixelSize : Option ℚ) : CameraSpecs × Bool :=
  match exifData with
  | none => (specsInit manualFocalLength manualPixelSize, false)
  | some e =>
    pixelSteps e (focalStep e (withMakeModelDims e
      (specsInit manualFocalLength manualPixelSize)))

/-! ## Pipeline stages of the canonical server variant
(`runEdgeDetection`, `runFoundBinaryNative`, `buildFoundCommand`, and the
`/api/upload` handler). -/

/-- The JSON object produced by the edge-detection script. -/
structure EdgeResult where
  success : Bool
  edge_points_count : ℚ
  edge_points_file : String
  width : ℚ
  height : ℚ
deriving DecidableEq

/-- Process-level outcome of the edge-detection child process, as seen by
`runEdgeDetection`: timeout, spawn error, or exit with a code and the
`JSON.parse` result of its stdout (`none` for unparseable output). -/
inductive EdgeProcOutcome
  | timeout
  | spawnError
  | exited (code : ℤ) (parsedOutput : Option EdgeResult)
deriving DecidableEq

/-- `runEdgeDetection`: reject when the script is missing, on timeout, on a
spawn error, on a non-zero exit, or on unparseable JSON; otherwise resolve the
parsed results object (even when its `success` field is false). -/
def runEdgeDetection (scriptExists : Bool) (o : EdgeProcOutcome) :
    Except String EdgeResult :=
  if !scriptExists then .error "Edge detection functionality not available"
  else
    match o with
    | .timeout => .error "Edge detection timeout"
    | .spawnError => .error "Failed to run edge detection script"
    | .exited code parsedOutput =>
      if code == 0 then
        match parsedOutput with
        | some results => .ok results
        | none => .error "Failed to parse edge detection results"
      else .error "Edge detection script failed"

/-- Process-level outcome of the FOUND binary child process. -/
inductive FoundProcOutcome
  | timeout
  | spawnError
  | exited (code : ℤ) (stdout stderr : String)
deriving DecidableEq

/-- An element of a child-process argument vector: a literal string or a
numeric value (the source serializes numbers with `toString`; the exact
rational value is carried here). -/
inductive Arg
  | str (s : String)
  | num (q : ℚ)
deriving DecidableEq

/-- The argument vector built by `runFoundBinaryNative`: focal length is
converted mm → m (`* 1e-3`) and pixel size µm → m (`* 1e-6`); edge-point
arguments only when the edge results are present with `success`, planetary
radius only when positive.  (JS coerces `null` to 0 in multiplication, hence
`getD 0`; the ready-check in the handler rules that case out.) -/
def foundNativeArgs (imagePath : String) (cameraSpecs : CameraSpecs)
    (planetaryRadius : Option ℚ) (edgeResults : Option EdgeResult) : List Arg :=
  let base :=
    [Arg.str "edge-distance", Arg.str "--image", Arg.str imagePath,
     Arg.str "--reference-as-orientation",
     Arg.str "--camera-focal-length",
     Arg.num (cameraSpecs.focalLength.getD 0 * (1 / 1000)),
     Arg.str "--camera-pixel-size",
     Arg.num (cameraSpecs.pixelSize.getD 0 * (1 / 1000000)),
     Arg.str "--reference-orientation", Arg.str "0,0,0"]
  let withEdge := base ++
    (match edgeResults with
     | some er =>
       if er.success then
         [Arg.str "--edge-points", Arg.str er.edge_points_file,
          Arg.str "--image-width", Arg.num er.width,
          Arg.str "--image-height", Arg.num er.height]
       else []
     | none => [])
  withEdge ++
    (match planetaryRadius with
     | some r => if 0 < r then [Arg.str "--planetary-radius", Arg.num r] else []
     | none => [])

/-- `buildFoundCommand`: the same conversions (`focalLengthInMeters`,
`pixelSizeInMeters`) and optional arguments, with the binary path prepended
(the source joins this vector into one shell string; the join is
serialization and is left abstract). -/
def buildFoundCommand (binaryPath imagePath : String) (cameraSpecs : CameraSpecs)
    (planetaryRadius : Option ℚ) (edgeResults : Option EdgeResult) : List Arg :=
  let focalLengthInMeters := cameraSpecs.focalLength.getD 0 * (1 / 1000)
  let pixelSizeInMeters := cameraSpecs.pixelSize.getD 0 * (1 / 1000000)
  let args :=
    [Arg.str binaryPath, Arg.str "edge-distance", Arg.str "--image",
     Arg.str imagePath, Arg.str "--reference-as-orientation",
     Arg.str "--camera-focal-length", Arg.num focalLengthInMeters,
     Arg.str "--camera-pixel-size", Arg.num pixelSizeInMeters,
     Arg.str "--reference-orientation", Arg.str "0,0,0"]
  let withEdge := args ++
    (match edgeResults with
     | some er =>
       if er.success then
         [Arg.str "--edge-points", Arg.str er.edge_points_file,
          Arg.str "--image-width", Arg.num er.width,
          Arg.str "--image-height", Arg.num er.height]
       else []
     | none => [])
  withEdge ++
    (match planetaryRadius with
     | some r => if 0 < r then [Arg.str "--planetary-radius", Arg.num r] else []
     | none => [])

/-- Result classification of `runFoundBinaryNative`: reject when the binary is
missing, on timeout or spawn error, or on a non-zero exit; on exit code 0
parse the stdout and reject with "Could not parse distance from FOUND output"
when `parseDistanceFromOutput` returns null.  (The source's missing-binary,
timeout, spawn and non-zero-exit rejections all carry the same message,
written here without its apostrophe.) -/
def runFoundBinaryNative (binaryExists : Bool) (o : FoundProcOutcome) :
    Except String JsNum :=
  if !binaryExists then .error "you couldnt be found"
  else
    match o with
    | .timeout => .error "you couldnt be found"
    | .spawnError => .error "you couldnt be found"
    | .exited code stdout _stderr =>
      if code == 0 then
        match parseDistanceFromOutput stdout with
        | some distance => .ok distance
        | none => .error "Could not parse distance from FOUND output"
      else .error "you couldnt be found"

/-- The two external stages of the pipeline. -/
inductive Stage
  | edgeExtraction
  | distanceComputation
deriving DecidableEq

/-- The JSON response of the `/api/upload` handler (the fields the claims
are about). -/
structure UploadResponse where
  success : Bool
  needsManualInput : Bool
  cameraSpecs : CameraSpecs
  distance : Option JsNum
  errorMsg : Option String
deriving DecidableEq

/-- The `/api/upload` handler of the canonical variant (production
configuration, i.e. `runFoundBinary` dispatching to the native path): resolve
specs; when focal length or pixel size is not truthy answer
`needsManualInput` with the partial specs and run no stage; otherwise run edge
detection, catching any failure and continuing with `null` edge results, then
run the FOUND binary and answer success or failure from its result.  The
second component lists the external-stage invocations performed, each with its
argument vector. -/
def handleUpload (imagePath : String) (exifData : Option ExifData)
    (manualFocalLength manualPixelSize planetaryRadius : Option ℚ)
    (edgeScriptExists : Bool) (edgeOutcome : EdgeProcOutcome)
    (foundBinaryExists : Bool) (foundOutcome : FoundProcOutcome) :
    UploadResponse × List (Stage × List Arg) :=
  let cameraSpecs :=
    (extractCameraSpecs exifData manualFocalLength manualPixelSize).1
  if !numTruthy cameraSpecs.focalLength || !numTruthy cameraSpecs.pixelSize then
    ({ success := false, needsManualInput := true, cameraSpecs := cameraSpecs,
       distance := none,
       errorMsg := some "Unable to extract required camera specifications from image. Please provide manual input." },
     [])
  else
    let edgeResults : Option EdgeResult :=
      match runEdgeDetection edgeScriptExists edgeOutcome with
      | .ok results => some results
      | .error _ => none
    let distArgs := foundNativeArgs imagePath cameraSpecs planetaryRadius edgeResults
    let invocations :=
      [(Stage.edgeExtraction, [Arg.str imagePath]),
       (Stage.distanceComputation, distArgs)]
    match runFoundBinaryNative foundBinaryExists foundOutcome with
    | .ok distance =>
      ({ success := true, needsManualInput := false, cameraSpecs := cameraSpecs,
         distance := some distance, errorMsg := none }, invocations)
    | .error m =>
      ({ success := false, needsManualInput := false, cameraSpecs := cameraSpecs,
         distance := none, errorMsg := some m }, invocations)

/-! ## Failure classification (spec-modelled) -/

/-- The terminal classification of a completed distance-stage invocation. -/
inductive FailureKind
  | EnvironmentIncompatible
  | ComputationFailed
  | InternalError
  | Success
deriving DecidableEq

/-- Modelled from the spec: the version-incompatibility marker strings (the
repository's compatibility document records the binary failing with
`GLIBCXX_3.4.32` / `GLIBC_2.38` library-version errors). -/
def versionIncompatibilityMarkers : List String := ["GLIBCXX_3.4.32", "GLIBC_2.38"]

/-- Modelled from the spec: the literal domain marker meaning the subject was
not identifiable in the image. -/
def notLocatedMarker : String := "not located"

/-- Modelled from the spec: the failure-classification routine of the updated
server (the "enhanced error handling" that detects library-compatibility
markers is documented in the repository but its code is not among the provided
sources).  Priority order per the spec: version-incompatibility markers in the
combined stdout+stderr, then the domain "not located" marker, then non-zero
exit, then exit 0 with no parseable distance. -/
def classifyFailure (stdout stderr : String) (exitCode : ℤ)
    (parsedDistance : Option JsNum) : FailureKind :=
  let combined := stdout ++ stderr
  if versionIncompatibilityMarkers.any (fun m => strIncludes combined m) then
    .EnvironmentIncompatible
  else if strIncludes combined notLocatedMarker then .ComputationFailed
  else if exitCode != 0 then .InternalError
  else
    match parsedDistance with
    | none => .InternalError
    | some _ => .Success

/-- The EXIF data of the C2 counterexample: only a 35mm-equivalent focal
length (52) is present. -/
def c2Exif : ExifData :=
  { make := none, model := none, imageWidth := none, imageHeight := none,
    focalLength := none, focalLengthIn35mmFormat := some 52,
    focalPlaneXResolution := none, focalPlaneYResolution := none,
    focalPlaneResolutionUnit := none }

/-- The EXIF data of the C10 witness: only make and model present. -/
def c10Exif : ExifData :=
  { make := some "Apple", model := some "iPhone 14 Pro Max",
    imageWidth := none, imageHeight := none, focalLength := none,
    focalLengthIn35mmFormat := none, focalPlaneXResolution := none,
    focalPlaneYResolution := none, focalPlaneResolutionUnit := none }

/-! ## Helper lemmas about the resolver steps -/

theorem withMakeModelDims_focalLength (e : ExifData) (s : CameraSpecs) :
    (withMakeModelDims e s).focalLength = s.focalLength := rfl

theorem withMakeModelDims_pixelSize (e : ExifData) (s : CameraSpecs) :
    (withMakeModelDims e s).pixelSize = s.pixelSize := rfl

theorem withMakeModelDims_make (e : ExifData) (s : CameraSpecs) :
    (withMakeModelDims e s).make = jsOrStr e.make none := rfl

theorem withMakeModelDims_model (e : ExifData) (s : CameraSpecs) :
    (withMakeModelDims e s).model = jsOrStr e.model none := rfl

theorem focalStep_pixelSize (e : ExifData) (s : CameraSpecs) :
    (focalStep e s).pixelSize = s.pixelSize := by
  unfold focalStep; split <;> rfl

theorem focalStep_make (e : ExifData) (s : CameraSpecs) :
    (focalStep e s).make = s.make := by
  unfold focalStep; split <;> rfl

theorem focalStep_model (e : ExifData) (s : CameraSpecs) :
    (focalStep e s).model = s.model := by
  unfold focalStep; split <;> rfl

theorem focalStep_of_truthy (e : ExifData) (s : CameraSpecs)
    (h : numTruthy s.focalLength = true) : focalStep e s = s := by
  unfold focalStep; simp [h]

theorem focalStep_focalLength_of_falsy (e : ExifData) (s : CameraSpecs)
    (h : numTruthy s.focalLength = false) :
    (focalStep e s).focalLength =
      jsOrNum e.focalLength (jsOrNum e.focalLengthIn35mmFormat none) := by
  unfold focalStep; simp [h]

theorem pixelSteps_of_truthy (e : ExifData) (s : CameraSpecs)
    (h : numTruthy s.pixelSize = true) : pixelSteps e s = (s, false) := by
  unfold pixelSteps; simp [h]

theorem resolutionStep_focalLength (e : ExifData) (s : CameraSpecs) :
    (resolutionStep e s).focalLength = s.focalLength := rfl

theorem databaseStep_focalLength (s : CameraSpecs) :
    (databaseStep s).focalLength = s.focalLength := by
  unfold databaseStep; split <;> rfl

theorem dimensionStep_focalLength (s : CameraSpecs) :
    (dimensionStep s).1.focalLength = s.focalLength := by
  unfold dimensionStep; split <;> rfl

theorem pixelSteps_focalLength (e : ExifData) (s : CameraSpecs) :
    (pixelSteps e s).1.focalLength = s.focalLength := by
  unfold pixelSteps
  split_ifs <;>
    simp [dimensionStep_focalLength, databaseStep_focalLength, resolutionStep_focalLength]

/-! ## Claim theorems -/

/-- C9: the dimension heuristic returns 1.8 µm exactly when width>3000 and
height>2000, else 2.0 µm exactly when width>2000 and height>1500, else
2.2 µm; the boundaries are exclusive, so width=3001,height=2001 gives 1.8
while width=3000,height=2000 gives 2.0. -/
theorem C9_dimension_heuristic :
    (∀ width height : ℚ, 3000 < width → 2000 < height →
      estimatePixelSizeFromDimensions width height = 1.8)
    ∧ (∀ width height : ℚ, ¬(3000 < width ∧ 2000 < height) →
      2000 < width → 1500 < height →
      estimatePixelSizeFromDimensions width height = 2.0)
    ∧ (∀ width height : ℚ, ¬(3000 < width ∧ 2000 < height) →
      ¬(2000 < width ∧ 1500 < height) →
      estimatePixelSizeFromDimensions width height = 2.2)
    ∧ estimatePixelSizeFromDimensions 3001 2001 = 1.8
    ∧ estimatePixelSizeFromDimensions 3000 2000 = 2.0 := by
  refine ⟨?_, ?_, ?_, by decide, by decide⟩
  · intro w h h1 h2
    unfold estimatePixelSizeFromDimensions
    rw [if_pos ⟨h1, h2⟩]
  · intro w h hno h1 h2
    unfold estimatePixelSizeFromDimensions
    rw [if_neg hno, if_pos ⟨h1, h2⟩]
  · intro w h hno1 hno2
    unfold estimatePixelSizeFromDimensions
    rw [if_neg hno1, if_neg hno2]

/-- C9 witness: the theorem applied at the boundary inputs 3001×2001. -/
theorem C9_witness : estimatePixelSizeFromDimensions 3001 2001 = 1.8 :=
  C9_dimension_heuristic.1 3001 2001 (by decide) (by decide)

/-- C2 counterexample: with `focalLength35mm = 52` and no higher-priority
focal length, the resolver yields `focalLengthMm = 52` itself — not the
rescaled value ≈ 7.39 the claim asserts (there is no sensor-diagonal
rescaling in the code). -/
theorem C2_counterexample :
    (extractCameraSpecs (some c2Exif) none none).1.focalLength = some 52
    ∧ (52 : ℚ) ≠ 7.39 := by decide

/-- C2 amended: if `focalLengthMm` is unset after the manual layer, the
resolver takes the direct EXIF focal length if truthy and otherwise uses
`focalLength35mm` directly, without any sensor-diagonal rescaling; in
particular `focalLength35mm = 52` yields `focalLengthMm = 52`. -/
theorem C2_f35_used_directly (e : ExifData) (mFL mPS : Option ℚ)
    (hm : numTruthy mFL = false)
    (hfl : numTruthy e.focalLength = false)
    (h35 : numTruthy e.focalLengthIn35mmFormat = true) :
    (extractCameraSpecs (some e) mFL mPS).1.focalLength =
      e.focalLengthIn35mmFormat := by
  show (pixelSteps e (focalStep e (withMakeModelDims e (specsInit mFL mPS)))).1.focalLength = _
  rw [pixelSteps_focalLength]
  rw [focalStep_focalLength_of_falsy]
  · unfold jsOrNum
    rw [if_neg (by simp [hfl]), if_pos h35]
  · rw [withMakeModelDims_focalLength]
    exact hm

/-- C2 witness: the amended theorem applied at the counterexample input. -/
theorem C2_witness :
    (extractCameraSpecs (some c2Exif) none none).1.focalLength = some 52 :=
  C2_f35_used_directly c2Exif none none (by decide) (by decide) (by decide)

/-- C7: whenever the combined stdout/stderr of a completed distance-stage
invocation contains the version-incompatibility marker `GLIBCXX_3.4.32`,
classification returns `EnvironmentIncompatible`, even with a non-zero exit
code and the "not located" marker also present. -/
theorem C7_version_marker_top_priority (stdout stderr : String) (exitCode : ℤ)
    (parsedDistance : Option JsNum)
    (h : strIncludes (stdout ++ stderr) "GLIBCXX_3.4.32" = true) :
    classifyFailure stdout stderr exitCode parsedDistance =
      FailureKind.EnvironmentIncompatible := by
  unfold classifyFailure
  rw [if_pos]
  simp only [versionIncompatibilityMarkers, List.any_cons, List.any_nil]
  simp [h]

/-- C7 witness: a run with exit code 1 whose stderr carries both the
version-incompatibility marker and the "not located" marker. -/
theorem C7_witness :
    classifyFailure ""
      "version GLIBCXX_3.4.32 not found; subject not located" 1 none =
      FailureKind.EnvironmentIncompatible :=
  C7_version_marker_top_priority ""
    "version GLIBCXX_3.4.32 not found; subject not located" 1 none (by decide)

/-! ## Positivity of the device database -/

theorem cameraDatabase_pos : ∀ p ∈ cameraDatabase, ∀ q ∈ p.2, 0 < q.2 := by decide

theorem fallbacks_pos : ∀ p ∈ fallbacks, 0 < p.2 := by decide

theorem modelLookup_pos (cleanMake cleanModel : String) (v : ℚ)
    (h : modelLookup cleanMake cleanModel = some v) : 0 < v := by
  unfold modelLookup at h
  split at h
  next makeKey models heq =>
    split at h
    next w v2 heq2 =>
      cases h
      exact cameraDatabase_pos _ (List.mem_of_find?_eq_some heq) _
        (List.mem_of_find?_eq_some heq2)
    next heq2 => cases h
  next heq => cases h

theorem fallbackLookup_pos (cleanMake : String) (v : ℚ)
    (h : fallbackLookup cleanMake = some v) : 0 < v := by
  unfold fallbackLookup at h
  split at h
  next w v2 heq =>
    cases h
    exact fallbacks_pos _ (List.mem_of_find?_eq_some heq)
  next heq => cases h

theorem estimatePixelSize_pos (make model : String) :
    0 < estimatePixelSize make model := by
  have h : estimatePixelSize make model =
      match modelLookup (jsTrim make) (jsTrim model) with
      | some v => v
      | none =>
        match fallbackLookup (jsTrim make) with
        | some v => v
        | none => 1.6 := rfl
  rw [h]
  split
  · next v hv => exact modelLookup_pos _ _ _ hv
  · split
    · next v hv => exact fallbackLookup_pos _ _ hv
    · decide

/-! ## More resolver step lemmas -/

theorem numTruthy_pos (v : ℚ) (h : 0 < v) : numTruthy (some v) = true := by
  simp [numTruthy, bne_iff_ne]
  exact h.ne'

theorem resolutionStep_pixelSize (e : ExifData) (s : CameraSpecs) :
    (resolutionStep e s).pixelSize =
      if numTruthy e.focalPlaneXResolution then calculatePixelSizeFromResolution e
      else none := rfl

theorem resolutionStep_make (e : ExifData) (s : CameraSpecs) :
    (resolutionStep e s).make = s.make := rfl

theorem resolutionStep_model (e : ExifData) (s : CameraSpecs) :
    (resolutionStep e s).model = s.model := rfl

theorem databaseStep_of_truthy (s : CameraSpecs)
    (h : numTruthy s.pixelSize = true) : databaseStep s = s := by
  unfold databaseStep; simp [h]

theorem dimensionStep_of_truthy (s : CameraSpecs)
    (h : numTruthy s.pixelSize = true) : dimensionStep s = (s, false) := by
  unfold dimensionStep; simp [h]

theorem databaseStep_fires (s : CameraSpecs) (mk md : String)
    (hps : numTruthy s.pixelSize = false)
    (hmk : s.make = some mk) (hmk2 : mk ≠ "")
    (hmd : s.model = some md) (hmd2 : md ≠ "") :
    (databaseStep s).pixelSize = some (estimatePixelSize mk md) := by
  unfold databaseStep
  rw [if_pos]
  · rw [hmk, hmd]
    rfl
  · simp [hps, hmk, hmd, strTruthy, hmk2, hmd2]

/-- C4: resolver layers never overwrite a value set by a higher-priority
source.  (1) Manual overrides survive every lower layer: with positive manual
focal length and pixel size the resolved fields are exactly the manual values,
whatever the EXIF data contains.  (2) A truthy pixel size computed from the
EXIF focal-plane resolution survives the database and dimension layers.
(3) A database-supplied pixel size survives the dimension-heuristic layer. -/
theorem C4_priority_never_overwritten :
    (∀ (exifData : Option ExifData) (fl ps : ℚ), 0 < fl → 0 < ps →
      (extractCameraSpecs exifData (some fl) (some ps)).1.focalLength = some fl
      ∧ (extractCameraSpecs exifData (some fl) (some ps)).1.pixelSize = some ps)
    ∧ (∀ (e : ExifData) (mFL : Option ℚ),
      numTruthy e.focalPlaneXResolution = true →
      numTruthy (calculatePixelSizeFromResolution e) = true →
      (extractCameraSpecs (some e) mFL none).1.pixelSize =
        calculatePixelSizeFromResolution e)
    ∧ (∀ (e : ExifData) (mFL : Option ℚ) (mk md : String),
      e.make = some mk → mk ≠ "" → e.model = some md → md ≠ "" →
      numTruthy (if numTruthy e.focalPlaneXResolution then
        calculatePixelSizeFromResolution e else none) = false →
      (extractCameraSpecs (some e) mFL none).1.pixelSize =
        some (estimatePixelSize mk md)) := by
  refine ⟨?_, ?_, ?_⟩
  · intro exif fl ps hfl hps
    have h1 := numTruthy_pos fl hfl
    have h2 := numTruthy_pos ps hps
    cases exif with
    | none => exact ⟨rfl, rfl⟩
    | some e =>
      have hbase : extractCameraSpecs (some e) (some fl) (some ps) =
          pixelSteps e (focalStep e (withMakeModelDims e
            (specsInit (some fl) (some ps)))) := rfl
      have hw : (withMakeModelDims e (specsInit (some fl) (some ps))).focalLength =
          some fl := rfl
      have hfs := focalStep_of_truthy e
        (withMakeModelDims e (specsInit (some fl) (some ps)))
        (by rw [hw]; exact h1)
      have hpix : (focalStep e (withMakeModelDims e
          (specsInit (some fl) (some ps)))).pixelSize = some ps := by
        rw [focalStep_pixelSize]; rfl
      have hsteps := pixelSteps_of_truthy e
        (focalStep e (withMakeModelDims e (specsInit (some fl) (some ps))))
        (by rw [hpix]; exact h2)
      constructor
      · rw [hbase, pixelSteps_focalLength, hfs, hw]
      · rw [hbase, hsteps]
        exact hpix
  · intro e mFL h1 h2
    set s := focalStep e (withMakeModelDims e (specsInit mFL none)) with hs
    have hbase : extractCameraSpecs (some e) mFL none = pixelSteps e s := rfl
    have hps : s.pixelSize = none := by rw [hs, focalStep_pixelSize]; rfl
    have hres : (resolutionStep e s).pixelSize = calculatePixelSizeFromResolution e := by
      rw [resolutionStep_pixelSize, if_pos h1]
    have htr : numTruthy (resolutionStep e s).pixelSize = true := by
      rw [hres]; exact h2
    rw [hbase]
    unfold pixelSteps
    rw [if_pos (show (!numTruthy s.pixelSize) = true by rw [hps]; rfl)]
    rw [databaseStep_of_truthy _ htr, dimensionStep_of_truthy _ htr]
    exact hres
  · intro e mFL mk md hmk hmk2 hmd hmd2 hresf
    set s := focalStep e (withMakeModelDims e (specsInit mFL none)) with hs
    have hbase : extractCameraSpecs (some e) mFL none = pixelSteps e s := rfl
    have hps : s.pixelSize = none := by rw [hs, focalStep_pixelSize]; rfl
    have hrf : numTruthy (resolutionStep e s).pixelSize = false := by
      rw [resolutionStep_pixelSize]; exact hresf
    have hmake : (resolutionStep e s).make = some mk := by
      rw [resolutionStep_make, hs, focalStep_make, withMakeModelDims_make]
      simp [jsOrStr, strTruthy, hmk, bne_iff_ne, hmk2]
    have hmodel : (resolutionStep e s).model = some md := by
      rw [resolutionStep_model, hs, focalStep_model, withMakeModelDims_model]
      simp [jsOrStr, strTruthy, hmd, bne_iff_ne, hmd2]
    have hdb := databaseStep_fires (resolutionStep e s) mk md hrf hmake hmk2 hmodel hmd2
    have hdbt : numTruthy (databaseStep (resolutionStep e s)).pixelSize = true := by
      rw [hdb]; exact numTruthy_pos _ (estimatePixelSize_pos mk md)
    rw [hbase]
    unfold pixelSteps
    rw [if_pos (show (!numTruthy s.pixelSize) = true by rw [hps]; rfl)]
    rw [dimensionStep_of_truthy _ hdbt]
    exact hdb

/-- C4 witness: manual focal length 26 and manual pixel size 2 survive
resolution. -/
theorem C4_witness :
    (extractCameraSpecs none (some 26) (some 2)).1.focalLength = some 26
    ∧ (extractCameraSpecs none (some 26) (some 2)).1.pixelSize = some 2 :=
  C4_priority_never_overwritten.1 none 26 2 (by decide) (by decide)

/-- C10: the device-database lookup returns a positive pixel size for every
make/model query (model match, make fallback, or the global default 1.6) and
never "none"; consequently, whenever make and model are present (non-empty)
during spec resolution, the resolved pixel size is truthy and the
dimension-heuristic branch never executes. -/
theorem C10_database_lookup_total_positive :
    (∀ make model : String, 0 < estimatePixelSize make model)
    ∧ (∀ (e : ExifData) (mFL mPS : Option ℚ) (mk md : String),
      e.make = some mk → mk ≠ "" → e.model = some md → md ≠ "" →
      numTruthy (extractCameraSpecs (some e) mFL mPS).1.pixelSize = true
      ∧ (extractCameraSpecs (some e) mFL mPS).2 = false) := by
  constructor
  · exact estimatePixelSize_pos
  · intro e mFL mPS mk md hmk hmk2 hmd hmd2
    set s := focalStep e (withMakeModelDims e (specsInit mFL mPS)) with hs
    have hbase : extractCameraSpecs (some e) mFL mPS = pixelSteps e s := rfl
    have hsp : s.pixelSize = mPS := by rw [hs, focalStep_pixelSize]; rfl
    rw [hbase]
    by_cases hc : numTruthy mPS = true
    · rw [pixelSteps_of_truthy e s (by rw [hsp]; exact hc)]
      refine ⟨?_, rfl⟩
      show numTruthy s.pixelSize = true
      rw [hsp]; exact hc
    · have hcf : numTruthy mPS = false := by
        revert hc; cases numTruthy mPS <;> simp
      unfold pixelSteps
      rw [if_pos (show (!numTruthy s.pixelSize) = true by rw [hsp, hcf]; rfl)]
      by_cases hres : numTruthy (resolutionStep e s).pixelSize = true
      · rw [databaseStep_of_truthy _ hres, dimensionStep_of_truthy _ hres]
        exact ⟨hres, rfl⟩
      · have hresf : numTruthy (resolutionStep e s).pixelSize = false := by
          revert hres; cases numTruthy (resolutionStep e s).pixelSize <;> simp
        have hmake : (resolutionStep e s).make = some mk := by
          rw [resolutionStep_make, hs, focalStep_make, withMakeModelDims_make]
          simp [jsOrStr, strTruthy, hmk, bne_iff_ne, hmk2]
        have hmodel : (resolutionStep e s).model = some md := by
          rw [resolutionStep_model, hs, focalStep_model, withMakeModelDims_model]
          simp [jsOrStr, strTruthy, hmd, bne_iff_ne, hmd2]
        have hdb := databaseStep_fires (resolutionStep e s) mk md hresf hmake hmk2
          hmodel hmd2
        have hdbt : numTruthy (databaseStep (resolutionStep e s)).pixelSize = true := by
          rw [hdb]; exact numTruthy_pos _ (estimatePixelSize_pos mk md)
        rw [dimensionStep_of_truthy _ hdbt]
        exact ⟨hdbt, rfl⟩

/-- C10 witness: with make "Apple" and model "iPhone 14 Pro Max" present, the
resolved pixel size is truthy and the dimension-heuristic branch did not
run. -/
theorem C10_witness :
    numTruthy (extractCameraSpecs (some c10Exif) none none).1.pixelSize = true
    ∧ (extractCameraSpecs (some c10Exif) none none).2 = false :=
  C10_database_lookup_total_positive.2 c10Exif none none "Apple"
    "iPhone 14 Pro Max" rfl (by decide) rfl (by decide)

/-! ## Character-membership lemmas for the output parser -/

theorem matchLit_suffix : ∀ (ps cs rest : List Char),
    matchLit ps cs = some rest → rest <:+ cs := by
  intro ps
  induction ps with
  | nil =>
    intro cs rest h
    cases h
    exact List.suffix_refl cs
  | cons p ps ih =>
    intro cs rest h
    cases cs with
    | nil => cases h
    | cons c cs2 =>
      unfold matchLit at h
      split at h
      · exact (ih cs2 rest h).trans (List.suffix_cons c cs2)
      · cases h

theorem tryPattern1At_some (cs r : List Char) (h : tryPattern1At cs = some r) :
    (∃ c ∈ cs, isClassChar c = true) ∧ (∃ c ∈ cs, c.toLower = 'm') := by
  unfold tryPattern1At at h
  split at h
  next heq => cases h
  next rest heq =>
    dsimp only at h
    have hrest : rest <:+ cs := matchLit_suffix _ _ _ heq
    have hrest2 : skipWs rest <:+ cs :=
      (List.dropWhile_suffix isWsChar).trans hrest
    split at h
    · cases h
    next hne =>
      split at h
      next heq3 => cases h
      next c rest3 heq3 =>
        split at h
        next hm =>
          cases h
          constructor
          · cases hrun : (skipWs rest).takeWhile isClassChar with
            | nil => rw [hrun] at hne; simp at hne
            | cons x xs =>
              refine ⟨x, ?_, ?_⟩
              · exact hrest2.subset ((List.takeWhile_prefix isClassChar).subset
                  (by rw [hrun]; exact List.mem_cons_self x xs))
              · exact List.mem_takeWhile_imp (l := skipWs rest)
                  (by rw [hrun]; exact List.mem_cons_self x xs)
          · refine ⟨c, ?_, by simpa using hm⟩
            have hc : c ∈ skipWs ((skipWs rest).dropWhile isClassChar) := by
              rw [heq3]; exact List.mem_cons_self c rest3
            exact hrest2.subset ((List.dropWhile_suffix isClassChar).subset
              ((List.dropWhile_suffix isWsChar).subset hc))
        next => cases h

theorem tryPattern2At_some (cs r : List Char) (h : tryPattern2At cs = some r) :
    (∃ c ∈ cs, isClassChar c = true) ∧ (∃ c ∈ cs, c.toLower = 'm') := by
  unfold tryPattern2At at h
  dsimp only at h
  split at h
  · cases h
  next hne =>
    split at h
    next heq3 => cases h
    next c rest3 heq3 =>
      split at h
      next hm =>
        have hmem : ∀ x, x ∈ cs.takeWhile isClassChar → x ∈ cs :=
          fun x hx => (List.takeWhile_prefix isClassChar).subset hx
        constructor
        · cases hrun : cs.takeWhile isClassChar with
          | nil => rw [hrun] at hne; simp at hne
          | cons x xs =>
            refine ⟨x, hmem x (by rw [hrun]; exact List.mem_cons_self x xs), ?_⟩
            exact List.mem_takeWhile_imp (l := cs)
              (by rw [hrun]; exact List.mem_cons_self x xs)
        · refine ⟨c, ?_, by simpa using hm⟩
          have hc : c ∈ skipWs (cs.dropWhile isClassChar) := by
            rw [heq3]; exact List.mem_cons_self c rest3
          exact (List.dropWhile_suffix isClassChar).subset
            ((List.dropWhile_suffix isWsChar).subset hc)
      next => cases h

theorem scanPattern1_some (cs r : List Char) (h : scanPattern1 cs = some r) :
    (∃ c ∈ cs, isClassChar c = true) ∧ (∃ c ∈ cs, c.toLower = 'm') := by
  induction cs with
  | nil => cases h
  | cons c cs2 ih =>
    unfold scanPattern1 at h
    split at h
    next heq => cases h; exact tryPattern1At_some _ _ heq
    next heq =>
      obtain ⟨⟨x1, hx1, hp1⟩, ⟨x2, hx2, hp2⟩⟩ := ih h
      exact ⟨⟨x1, List.mem_cons_of_mem c hx1, hp1⟩,
             ⟨x2, List.mem_cons_of_mem c hx2, hp2⟩⟩

theorem scanPattern2_some (cs r : List Char) (h : scanPattern2 cs = some r) :
    (∃ c ∈ cs, isClassChar c = true) ∧ (∃ c ∈ cs, c.toLower = 'm') := by
  induction cs with
  | nil => cases h
  | cons c cs2 ih =>
    unfold scanPattern2 at h
    split at h
    next heq => cases h; exact tryPattern2At_some _ _ heq
    next heq =>
      obtain ⟨⟨x1, hx1, hp1⟩, ⟨x2, hx2, hp2⟩⟩ := ih h
      exact ⟨⟨x1, List.mem_cons_of_mem c hx1, hp1⟩,
             ⟨x2, List.mem_cons_of_mem c hx2, hp2⟩⟩

/-- C5: the output parser extracts 10456200 from
"Distance from Earth: 1.04562e+07 m" (exactly, since parsing is exact over
rationals), and returns none on any text with no numeric-class character or on
any text with no `m` (case-insensitive) — in particular on any text with no
numeric/"m" token. -/
theorem C5_parseDistance :
    parseDistanceFromOutput "Distance from Earth: 1.04562e+07 m" =
      some (JsNum.val 10456200)
    ∧ ∀ s : String,
      ((∀ c ∈ s.toList, isClassChar c = false) ∨
       (∀ c ∈ s.toList, c.toLower ≠ 'm')) →
      parseDistanceFromOutput s = none := by
  refine ⟨by decide, ?_⟩
  intro s hs
  unfold parseDistanceFromOutput
  have h1 : scanPattern1 s.toList = none := by
    cases hsc : scanPattern1 s.toList with
    | none => rfl
    | some r =>
      obtain ⟨⟨c1, hc1, hp1⟩, ⟨c2, hc2, hp2⟩⟩ := scanPattern1_some _ _ hsc
      rcases hs with hA | hB
      · exact absurd hp1 (by simp [hA c1 hc1])
      · exact absurd hp2 (hB c2 hc2)
  have h2 : scanPattern2 s.toList = none := by
    cases hsc : scanPattern2 s.toList with
    | none => rfl
    | some r =>
      obtain ⟨⟨c1, hc1, hp1⟩, ⟨c2, hc2, hp2⟩⟩ := scanPattern2_some _ _ hsc
      rcases hs with hA | hB
      · exact absurd hp1 (by simp [hA c1 hc1])
      · exact absurd hp2 (hB c2 hc2)
  rw [h1, h2]

/-- C5 witness: applying the none-case to a concrete m-free text. -/
theorem C5_witness : parseDistanceFromOutput "hello there" = none :=
  C5_parseDistance.2 "hello there" (Or.inr (by decide))

/-- C8: when the resolved specification is not computation-ready (focal length
or pixel size falsy), the handler answers needsManualInput with the partial
specification, is not a success, and invokes neither the edge-extraction stage
nor the distance-computation stage. -/
theorem C8_needs_manual_input (imagePath : String) (exifData : Option ExifData)
    (mFL mPS pr : Option ℚ) (se : Bool) (eo : EdgeProcOutcome)
    (be : Bool) (fo : FoundProcOutcome)
    (h : numTruthy (extractCameraSpecs exifData mFL mPS).1.focalLength = false
       ∨ numTruthy (extractCameraSpecs exifData mFL mPS).1.pixelSize = false) :
    (handleUpload imagePath exifData mFL mPS pr se eo be fo).1.needsManualInput = true
    ∧ (handleUpload imagePath exifData mFL mPS pr se eo be fo).1.success = false
    ∧ (handleUpload imagePath exifData mFL mPS pr se eo be fo).1.cameraSpecs =
        (extractCameraSpecs exifData mFL mPS).1
    ∧ (handleUpload imagePath exifData mFL mPS pr se eo be fo).2 = [] := by
  have hcond : (!numTruthy (extractCameraSpecs exifData mFL mPS).1.focalLength
      || !numTruthy (extractCameraSpecs exifData mFL mPS).1.pixelSize) = true := by
    rcases h with h | h <;> simp [h]
  simp only [handleUpload]
  rw [if_pos hcond]
  exact ⟨rfl, rfl, rfl, rfl⟩

/-- C8 witness: a request with no EXIF data and no manual values. -/
theorem C8_witness :
    (handleUpload "img.jpg" none none none none true (EdgeProcOutcome.exited 0 none)
      true (FoundProcOutcome.exited 0 "" "")).1.needsManualInput = true
    ∧ (handleUpload "img.jpg" none none none none true (EdgeProcOutcome.exited 0 none)
      true (FoundProcOutcome.exited 0 "" "")).1.success = false
    ∧ (handleUpload "img.jpg" none none none none true (EdgeProcOutcome.exited 0 none)
      true (FoundProcOutcome.exited 0 "" "")).1.cameraSpecs =
        (extractCameraSpecs none none none).1
    ∧ (handleUpload "img.jpg" none none none none true (EdgeProcOutcome.exited 0 none)
      true (FoundProcOutcome.exited 0 "" "")).2 = [] :=
  C8_needs_manual_input "img.jpg" none none none none true
    (EdgeProcOutcome.exited 0 none) true (FoundProcOutcome.exited 0 "" "")
    (Or.inl (by decide))

/-- C6: a distance-stage invocation that exits with code 0 but whose output
yields no parseable distance is rejected with the unparseable-output error
(and the request is not reported as a success and carries no distance),
whatever the rest of the request looks like. -/
theorem C6_unparseable_success_output (out err : String)
    (h : parseDistanceFromOutput out = none) :
    runFoundBinaryNative true (FoundProcOutcome.exited 0 out err) =
      Except.error "Could not parse distance from FOUND output"
    ∧ ∀ (imagePath : String) (exifData : Option ExifData) (mFL mPS pr : Option ℚ)
        (se : Bool) (eo : EdgeProcOutcome),
      (handleUpload imagePath exifData mFL mPS pr se eo true
        (FoundProcOutcome.exited 0 out err)).1.success = false
      ∧ (handleUpload imagePath exifData mFL mPS pr se eo true
        (FoundProcOutcome.exited 0 out err)).1.distance = none := by
  have hrun : runFoundBinaryNative true (FoundProcOutcome.exited 0 out err) =
      Except.error "Could not parse distance from FOUND output" := by
    unfold runFoundBinaryNative
    simp [h]
  refine ⟨hrun, ?_⟩
  intro imagePath exifData mFL mPS pr se eo
  simp only [handleUpload]
  by_cases hc : (!numTruthy (extractCameraSpecs exifData mFL mPS).1.focalLength
      || !numTruthy (extractCameraSpecs exifData mFL mPS).1.pixelSize) = true
  · rw [if_pos hc]
    exact ⟨rfl, rfl⟩
  · rw [if_neg hc, hrun]
    exact ⟨rfl, rfl⟩

/-- C6 witness: exit code 0 with unparseable output is not a success. -/
theorem C6_witness :
    (handleUpload "img.jpg" none (some 26) (some 2) none true
      (EdgeProcOutcome.exited 0 none) true
      (FoundProcOutcome.exited 0 "no distance here" "")).1.success = false :=
  ((C6_unparseable_success_output "no distance here" "" (by decide)).2
    "img.jpg" none (some 26) (some 2) none true (EdgeProcOutcome.exited 0 none)).1

/-- C3 counterexample: a concrete request whose edge-extraction stage fails
(exit code 1), yet the pipeline does not go to an internal error: it invokes
the distance-computation stage anyway and even terminates successfully with a
parsed distance. -/
theorem C3_counterexample :
    (handleUpload "img.jpg" none (some 26) (some (17/10)) none
      true (EdgeProcOutcome.exited 1 none)
      true (FoundProcOutcome.exited 0 "Distance from Earth: 4.2e+03 m" "")).1.success
      = true
    ∧ (handleUpload "img.jpg" none (some 26) (some (17/10)) none
      true (EdgeProcOutcome.exited 1 none)
      true (FoundProcOutcome.exited 0 "Distance from Earth: 4.2e+03 m" "")).1.distance
      = some (JsNum.val 4200)
    ∧ ((handleUpload "img.jpg" none (some 26) (some (17/10)) none
      true (EdgeProcOutcome.exited 1 none)
      true (FoundProcOutcome.exited 0 "Distance from Earth: 4.2e+03 m" "")).2.map
        Prod.fst)
      = [Stage.edgeExtraction, Stage.distanceComputation] := by decide

/-- C3 amended: when the edge-extraction stage fails (non-success result,
timeout, spawn error or unparseable output) on a computation-ready request,
the handler catches the failure and still invokes the distance-computation
stage, with no edge-point arguments; the edge failure alone does not terminate
the request. -/
theorem C3_edge_failure_continues (imagePath : String) (exifData : Option ExifData)
    (mFL mPS pr : Option ℚ) (se : Bool) (eo : EdgeProcOutcome) (be : Bool)
    (fo : FoundProcOutcome) (msg : String)
    (hready1 : numTruthy (extractCameraSpecs exifData mFL mPS).1.focalLength = true)
    (hready2 : numTruthy (extractCameraSpecs exifData mFL mPS).1.pixelSize = true)
    (hedge : runEdgeDetection se eo = Except.error msg) :
    (handleUpload imagePath exifData mFL mPS pr se eo be fo).2 =
      [(Stage.edgeExtraction, [Arg.str imagePath]),
       (Stage.distanceComputation,
        foundNativeArgs imagePath (extractCameraSpecs exifData mFL mPS).1 pr none)] := by
  simp only [handleUpload]
  rw [if_neg (by rw [hready1, hready2]; simp)]
  rw [hedge]
  cases hfo : runFoundBinaryNative be fo <;> rfl

/-- C3 witness: the amended behavior at the counterexample input. -/
theorem C3_witness :
    (handleUpload "img.jpg" none (some 26) (some (17/10)) none
      true (EdgeProcOutcome.exited 1 none)
      true (FoundProcOutcome.exited 0 "Distance from Earth: 4.2e+03 m" "")).2 =
      [(Stage.edgeExtraction, [Arg.str "img.jpg"]),
       (Stage.distanceComputation,
        foundNativeArgs "img.jpg" (extractCameraSpecs none (some 26) (some (17/10))).1
          none none)] :=
  C3_edge_failure_continues "img.jpg" none (some 26) (some (17/10)) none
    true (EdgeProcOutcome.exited 1 none) true
    (FoundProcOutcome.exited 0 "Distance from Earth: 4.2e+03 m" "")
    "Edge detection script failed" (by decide) (by decide) rfl

/-! ## Argument-vector lemmas for the distance stage -/

theorem foundNativeArgs_get (imagePath : String) (specs : CameraSpecs)
    (pr : Option ℚ) (er : Option EdgeResult) (f p : ℚ)
    (hf : specs.focalLength = some f) (hp : specs.pixelSize = some p) :
    (foundNativeArgs imagePath specs pr er).get? 5 =
      some (Arg.num (f * (1 / 1000)))
    ∧ (foundNativeArgs imagePath specs pr er).get? 7 =
      some (Arg.num (p * (1 / 1000000))) := by
  unfold foundNativeArgs
  simp [hf, hp, List.cons_append, List.get?]

theorem buildFoundCommand_get (binaryPath imagePath : String) (specs : CameraSpecs)
    (pr : Option ℚ) (er : Option EdgeResult) (f p : ℚ)
    (hf : specs.focalLength = some f) (hp : specs.pixelSize = some p) :
    (buildFoundCommand binaryPath imagePath specs pr er).get? 6 =
      some (Arg.num (f * (1 / 1000)))
    ∧ (buildFoundCommand binaryPath imagePath specs pr er).get? 8 =
      some (Arg.num (p * (1 / 1000000))) := by
  unfold buildFoundCommand
  simp [hf, hp, List.cons_append, List.get?]

/-- C1: whenever the pipeline reaches the distance-computation stage, the
invocation's argument vector carries the resolved focal length converted
mm → meters (`× 1e-3`) and the resolved pixel size converted µm → meters
(`× 1e-6`) (positions 5 and 7, after the `--camera-focal-length` and
`--camera-pixel-size` flags), for every computation-ready specification; and
the Docker-path command builder `buildFoundCommand` performs the same
conversions (positions 6 and 8, after the prepended binary path). -/
theorem C1_distance_args_in_meters :
    (∀ (imagePath : String) (exifData : Option ExifData) (mFL mPS pr : Option ℚ)
       (se : Bool) (eo : EdgeProcOutcome) (be : Bool) (fo : FoundProcOutcome)
       (args : List Arg) (f p : ℚ),
      (extractCameraSpecs exifData mFL mPS).1.focalLength = some f → 0 < f →
      (extractCameraSpecs exifData mFL mPS).1.pixelSize = some p → 0 < p →
      (Stage.distanceComputation, args) ∈
        (handleUpload imagePath exifData mFL mPS pr se eo be fo).2 →
      args.get? 5 = some (Arg.num (f * (1 / 1000)))
      ∧ args.get? 7 = some (Arg.num (p * (1 / 1000000))))
    ∧ (∀ (binaryPath imagePath : String) (specs : CameraSpecs) (pr : Option ℚ)
       (er : Option EdgeResult) (f p : ℚ),
      specs.focalLength = some f → specs.pixelSize = some p →
      (buildFoundCommand binaryPath imagePath specs pr er).get? 6 =
        some (Arg.num (f * (1 / 1000)))
      ∧ (buildFoundCommand binaryPath imagePath specs pr er).get? 8 =
        some (Arg.num (p * (1 / 1000000)))) := by
  constructor
  · intro imagePath exifData mFL mPS pr se eo be fo args f p hf hfpos hp hppos hmem
    have h1 : numTruthy (extractCameraSpecs exifData mFL mPS).1.focalLength = true := by
      rw [hf]; exact numTruthy_pos f hfpos
    have h2 : numTruthy (extractCameraSpecs exifData mFL mPS).1.pixelSize = true := by
      rw [hp]; exact numTruthy_pos p hppos
    simp only [handleUpload] at hmem
    rw [if_neg (by rw [h1, h2]; simp)] at hmem
    cases hfo : runFoundBinaryNative be fo <;> rw [hfo] at hmem <;>
      simp only [List.mem_cons, List.not_mem_nil, or_false, Prod.mk.injEq] at hmem <;>
      rcases hmem with ⟨hst, _⟩ | ⟨_, hargs⟩ <;>
      first
        | cases hst
        | (subst hargs; exact foundNativeArgs_get imagePath _ pr _ f p hf hp)
  · intro binaryPath imagePath specs pr er f p hf hp
    exact buildFoundCommand_get binaryPath imagePath specs pr er f p hf hp

/-- C1 witness: for the resolved specification with manual focal length 26 mm
and pixel size 2 µm, the distance invocation carries 26×1e-3 and 2×1e-6. -/
theorem C1_witness :
    (foundNativeArgs "img.jpg" (extractCameraSpecs none (some 26) (some 2)).1
      none none).get? 5 = some (Arg.num (26 * (1 / 1000)))
    ∧ (foundNativeArgs "img.jpg" (extractCameraSpecs none (some 26) (some 2)).1
      none none).get? 7 = some (Arg.num (2 * (1 / 1000000))) :=
  C1_distance_args_in_meters.1 "img.jpg" none (some 26) (some 2) none
    true (EdgeProcOutcome.exited 1 none) true
    (FoundProcOutcome.exited 0 "Distance from Earth: 4.2e+03 m" "")
    (foundNativeArgs "img.jpg" (extractCameraSpecs none (some 26) (some 2)).1
      none none)
    26 2 (by decide) (by decide) (by decide) (by decide) (by decide)
